import Mathlib

/-!
Verification of the playwrightBDD test-automation scaffold.

This file shallowly embeds the testable logic of the repository in Lean 4:

* `deepMerge` from `src/utils/testDataManager.ts` (JS records modelled as
  association lists of `JSValue`),
* `ConfigManager.getBrowserConfig` / `getTestConfig` / `validateConfig` from
  `src/utils/configManager.ts` (environment modelled as optional strings,
  `parseInt` modelled on exact integers),
* `CucumberReportGenerator.calculateSummary` from
  `src/utils/cucumber-report.ts` and the `AfterAll` summary loop from the
  hooks module,
* the browser lifecycle (`initializeBrowser`, `cleanup`, `takeScreenshot`,
  `navigateToPage` from `src/utils/browserManager.ts`) and the feature-level
  `Before` hook,
* the `generateSSN` / `generateInsuranceCustomer` generators from
  `src/utils/testDataManager.ts` (faker draws modelled as parameters
  constrained to the requested ranges).

and proves the specified properties about those embeddings.
-/

/-- Model of a JavaScript value as manipulated by `deepMerge` in
`src/utils/testDataManager.ts`.  `undef` models the JS value `undefined`
(also the result of reading an absent property); `obj` models a plain object
as an association list of own enumerable properties in insertion order.
Arrays and `Date` objects do not occur in the merges performed by the
repository and are not modelled. -/
inductive JSValue where
  | undef : JSValue
  | null : JSValue
  | bool : Bool → JSValue
  | num : Int → JSValue
  | str : String → JSValue
  | obj : List (String × JSValue) → JSValue
  deriving Repr

/-- `typeof v === 'object' && v !== null`: in our model (no arrays, no dates)
this is exactly the `obj` constructor; note that JS `typeof null` is
`'object'` but the code in `deepMerge` excludes `null` explicitly. -/
def JSValue.isObjectNotNull : JSValue → Bool
  | JSValue.obj _ => true
  | _ => false

/-- `v === undefined`. -/
def JSValue.isUndefined : JSValue → Bool
  | JSValue.undef => true
  | _ => false

/-- The property list of an object value (`[]` for non-objects). -/
def JSValue.fields : JSValue → List (String × JSValue)
  | JSValue.obj fs => fs
  | _ => []

/-- Property read `o[key]`: the first binding of `key`, or `undefined` when
the key is absent. -/
def lookupField : List (String × JSValue) → String → JSValue
  | [], _ => JSValue.undef
  | (k, v) :: rest, key => if k = key then v else lookupField rest key

/-- Property write `o[key] = v`: updates the first binding of `key` in place,
or appends a new binding (JS objects keep insertion order). -/
def setKey : List (String × JSValue) → String → JSValue → List (String × JSValue)
  | [], key, v => [(key, v)]
  | (k, w) :: rest, key, v =>
    if k = key then (key, v) :: rest else (k, w) :: setKey rest key v

mutual

/-- Embedding of `deepMerge` (src/utils/testDataManager.ts, lines 9-28):

    function deepMerge<T>(target: T, source: DeepPartial<T>): T {
      const result = { ...target };
      for (const key in source) {
        if (source[key] !== undefined) {
          if (typeof source[key] === 'object' && source[key] !== null &&
              typeof target[key] === 'object' && target[key] !== null) {
            (result as any)[key] = deepMerge(target[key], source[key] as any);
          } else {
            (result as any)[key] = source[key];
          }
        }
      }
      return result;
    }

The function is only ever applied to objects (and recursively to properties
that are objects on both sides); on non-object targets we return the target,
which is never exercised by the call pattern. -/
def deepMerge : JSValue → JSValue → JSValue
  | JSValue.obj tf, JSValue.obj sf => JSValue.obj (mergeLoop tf tf sf)
  | t, _ => t

/-- The `for (const key in source)` loop of `deepMerge`: `tf` is the original
target's property list, `acc` the `result` object built so far, and the third
argument the remaining source properties to process. -/
def mergeLoop : List (String × JSValue) → List (String × JSValue) →
    List (String × JSValue) → List (String × JSValue)
  | _, acc, [] => acc
  | tf, acc, (key, sv) :: rest =>
    if sv.isUndefined then
      mergeLoop tf acc rest
    else
      let tv := lookupField tf key
      let merged :=
        if sv.isObjectNotNull && tv.isObjectNotNull then deepMerge tv sv else sv
      mergeLoop tf (setKey acc key merged) rest

end

/-! ## Configuration manager (src/utils/configManager.ts) -/

/-- The environment variables read by `ConfigManager` (each either set to a
string or unset).  Field names follow the variable names in the source. -/
structure Env where
  BROWSER : Option String := none
  HEADLESS : Option String := none
  VIEWPORT_WIDTH : Option String := none
  VIEWPORT_HEIGHT : Option String := none
  TIMEOUT : Option String := none
  SLOW_MO : Option String := none
  RECORD_VIDEO : Option String := none
  RECORD_TRACE : Option String := none
  BASE_URL : Option String := none
  RETRIES : Option String := none
  PARALLEL : Option String := none
  TAGS : Option String := none

/-- JS `process.env.X || fallback`: an unset variable (`undefined`) and the
empty string are both falsy, so either yields the fallback. -/
def jsOr (v : Option String) (fallback : String) : String :=
  match v with
  | some s => if s = "" then fallback else s
  | none => fallback

/-- Numeric value of a decimal digit character, if it is one. -/
def decDigitVal : Char → Option Nat :=
  fun c => if '0' ≤ c ∧ c ≤ '9' then some (c.toNat - '0'.toNat) else none

/-- Numeric value of a hexadecimal digit character, if it is one. -/
def hexDigitVal : Char → Option Nat :=
  fun c =>
    if '0' ≤ c ∧ c ≤ '9' then some (c.toNat - '0'.toNat)
    else if 'a' ≤ c ∧ c ≤ 'f' then some (c.toNat - 'a'.toNat + 10)
    else if 'A' ≤ c ∧ c ≤ 'F' then some (c.toNat - 'A'.toNat + 10)
    else none

/-- Value of the longest digit prefix (in the given base); `none` when
there is no leading digit (JS `parseInt` then returns `NaN`). -/
def parseDigitsTW (digitVal : Char → Option Nat) (base : Nat) (cs : List Char) : Option Nat :=
  let digits := cs.takeWhile (fun c => (digitVal c).isSome)
  if digits.isEmpty then none
  else some (digits.foldl (fun a ch => base * a + ((digitVal ch).getD 0)) 0)

/-- Model of JS `parseInt(s)` with no radix argument: skip leading
whitespace, read an optional sign, then either a `0x`/`0X`-prefixed
hexadecimal literal or a decimal literal, ignoring everything after the
longest digit prefix; `none` models `NaN`.  JS numbers lose precision above
2^53; the exact-integer model is faithful for every comparison performed by
`validateConfig`. -/
def jsParseInt (s : String) : Option Int :=
  let cs := s.data.dropWhile Char.isWhitespace
  let signAndRest : Int × List Char :=
    match cs with
    | '-' :: rest => (-1, rest)
    | '+' :: rest => (1, rest)
    | _ => (1, cs)
  let digits : Option Nat :=
    match signAndRest.2 with
    | '0' :: 'x' :: rest => parseDigitsTW hexDigitVal 16 rest
    | '0' :: 'X' :: rest => parseDigitsTW hexDigitVal 16 rest
    | rest => parseDigitsTW decDigitVal 10 rest
  digits.map (fun n => signAndRest.1 * (n : Int))

/-- JS `x < n` where `x` may be `NaN` (`none`): every comparison with `NaN`
is false. -/
def jsLt (x : Option Int) (n : Int) : Bool :=
  match x with
  | some v => v < n
  | none => false

/-- `BrowserConfig` as produced by `getBrowserConfig` (numbers that
`parseInt` may turn into `NaN` are `Option Int`). -/
structure BrowserConfig where
  browser : String
  headless : Bool
  viewportWidth : Option Int
  viewportHeight : Option Int
  timeout : Option Int
  slowMo : Option Int
  recordVideo : Bool
  recordTrace : Bool
  deriving Repr, DecidableEq

/-- `TestConfig` as produced by `getTestConfig`. -/
structure TestConfig where
  baseURL : String
  timeout : Option Int
  retries : Option Int
  parallel : Option Int
  tags : String
  deriving Repr, DecidableEq

/-- Embedding of `ConfigManager.getBrowserConfig`
(src/utils/configManager.ts, lines 55-68). -/
def getBrowserConfig (env : Env) : BrowserConfig :=
  { browser := jsOr env.BROWSER "chromium"
    headless := env.HEADLESS ≠ some "false"
    viewportWidth := jsParseInt (jsOr env.VIEWPORT_WIDTH "1920")
    viewportHeight := jsParseInt (jsOr env.VIEWPORT_HEIGHT "1080")
    timeout := jsParseInt (jsOr env.TIMEOUT "60000")
    slowMo := jsParseInt (jsOr env.SLOW_MO "0")
    recordVideo := env.RECORD_VIDEO = some "true"
    recordTrace := env.RECORD_TRACE = some "true" }

/-- Embedding of `ConfigManager.getTestConfig`
(src/utils/configManager.ts, lines 70-78). -/
def getTestConfig (env : Env) : TestConfig :=
  { baseURL := jsOr env.BASE_URL "http://localhost:3000"
    timeout := jsParseInt (jsOr env.TIMEOUT "60000")
    retries := jsParseInt (jsOr env.RETRIES "0")
    parallel := jsParseInt (jsOr env.PARALLEL "1")
    tags := match env.TAGS with | some s => s | none => "" }

/-- The `validBrowsers` list of `validateConfig`. -/
def validBrowsers : List String := ["chromium", "firefox", "webkit", "chrome"]

/-- Model of JS `String.prototype.startsWith` by character-list comparison
(extensionally the same as Lean's `String.startsWith`, but defined by
structural recursion so that it evaluates inside proofs). -/
def strStartsWith (s p : String) : Bool := p.data.isPrefixOf s.data

/-- Embedding of `ConfigManager.validateConfig`
(src/utils/configManager.ts, lines 125-149).  A thrown `Error` is the
`Except.error` case (carrying the message); a normal return carries the list
of `console.warn` messages issued on the way. -/
def validateConfig (env : Env) : Except String (List String) :=
  let browserConfig := getBrowserConfig env
  if ¬ validBrowsers.contains browserConfig.browser then
    Except.error ("Invalid browser: " ++ browserConfig.browser ++
      ". Valid options: " ++ String.intercalate ", " validBrowsers)
  else
    let testConfig := getTestConfig env
    if ¬ strStartsWith testConfig.baseURL "http" then
      Except.error ("Invalid BASE_URL: " ++ testConfig.baseURL ++
        ". Must start with http:// or https://")
    else
      let warnings :=
        if jsLt browserConfig.timeout 1000 then
          ["Warning: Timeout is less than 1 second, this might cause issues"]
        else []
      if jsLt browserConfig.viewportWidth 320 || jsLt browserConfig.viewportHeight 240 then
        Except.error "Viewport dimensions are too small. Minimum 320x240 required"
      else
        Except.ok warnings

/-! ## Cucumber report summary (src/utils/cucumber-report.ts) -/

/-- `step.result` in the cucumber JSON report. -/
structure StepResult where
  status : String
  duration : Option Int := none
  deriving Repr, DecidableEq

/-- A step of a scenario in the cucumber JSON report (`result` may be
absent). -/
structure ReportStep where
  result : Option StepResult := none
  deriving Repr, DecidableEq

/-- An element of a feature in the cucumber JSON report (`steps` may be
absent).  Only elements with `type = "scenario"` are counted. -/
structure ReportScenario where
  type : String
  steps : Option (List ReportStep) := none
  deriving Repr, DecidableEq

/-- A feature in the cucumber JSON report (`elements` may be absent). -/
structure ReportFeature where
  elements : Option (List ReportScenario) := none
  deriving Repr, DecidableEq

/-- The `scenarios` / `steps` count groups of the summary. -/
structure GroupCounts where
  total : Nat := 0
  passed : Nat := 0
  failed : Nat := 0
  skipped : Nat := 0
  deriving Repr, DecidableEq

/-- The `features` count group of the summary. -/
structure FeatureCounts where
  total : Nat := 0
  passed : Nat := 0
  failed : Nat := 0
  deriving Repr, DecidableEq

/-- Exact two-decimal rendering of `(passed / total) * 100`: the exact
rational `passed * 100 / total` rounded to the nearest hundredth (half up,
all values here being nonnegative) and printed with two decimal places.
This is the reading of "rendered with two decimal places" in the spec; the
program instead computes the IEEE-754 double `(passed / total) * 100` and
formats it with `toFixed(2)` (see `jsSuccessRate`), which can differ in the
last digit. -/
def renderRate (passed total : Nat) : String :=
  let hundredths := (passed * 10000 * 2 + total) / (2 * total)
  let ip := hundredths / 100
  let fp := hundredths % 100
  toString ip ++ "." ++ (if fp < 10 then "0" ++ toString fp else toString fp)

/-- Largest `e : Nat` with `den * 2 ^ e ≤ num` (fuel-bounded structural
recursion; `fuel = num` suffices since `2 ^ e ≤ num / den ≤ num`). -/
def flogUpAux : Nat → Nat → Nat → Nat
  | 0, _, _ => 0
  | fuel + 1, num, den => if den * 2 ≤ num then flogUpAux fuel num (den * 2) + 1 else 0

/-- Smallest `k : Nat` with `den ≤ num * 2 ^ k` (fuel-bounded structural
recursion; `fuel = den` suffices for `num ≥ 1`). -/
def flogDownAux : Nat → Nat → Nat → Nat
  | 0, _, _ => 0
  | fuel + 1, num, den => if den ≤ num then 0 else flogDownAux fuel (num * 2) den + 1

/-- `⌊log₂ (num / den)⌋` for a positive rational `num / den`. -/
def floorLog2Rat (num den : Nat) : Int :=
  if den ≤ num then (flogUpAux num num den : Int)
  else -(flogDownAux den num den : Int)

/-- Round `a / b` to the nearest integer, ties to even (the IEEE-754
default rounding). -/
def roundHalfEven (a b : Nat) : Nat :=
  let d := a / b
  let r := a % b
  if 2 * r < b then d
  else if b < 2 * r then d + 1
  else if d % 2 = 0 then d else d + 1

/-- The rational `(num / den) * 2 ^ e` as a numerator/denominator pair. -/
def ratTimesPow2 (num den : Nat) (e : Int) : Nat × Nat :=
  if 0 ≤ e then (num * 2 ^ e.toNat, den) else (num, den * 2 ^ (-e).toNat)

/-- The IEEE-754 binary64 value nearest to the nonnegative rational
`num / den` (round to nearest, ties to even), returned as a mantissa and a
power-of-two exponent `(m, u)` with value `m * 2 ^ u`: the exponent of the
unit in the last place is `⌊log₂ q⌋ - 52`, clamped at `-1074` for
subnormals.  Overflow cannot occur for the ratios computed by
`calculateSummary` (all values lie in `[0, 100]`). -/
def fl64 (num den : Nat) : Nat × Int :=
  if num = 0 ∨ den = 0 then (0, 0)
  else
    let f := floorLog2Rat num den
    let u := max (f - 52) (-1074)
    let ab := ratTimesPow2 num den (-u)
    (roundHalfEven ab.1 ab.2, u)

/-- ECMAScript `toFixed(2)` applied to the exact nonnegative rational
`a / b`: the integer `n` minimising `|n / 100 - a / b|`, taking the larger
`n` on a tie, printed as `n / 100` with two decimal places. -/
def toFixed2OfRat (a b : Nat) : String :=
  let n := (a * 100 * 2 + b) / (2 * b)
  toString (n / 100) ++ "." ++
    (if n % 100 < 10 then "0" ++ toString (n % 100) else toString (n % 100))

/-- Faithful model of the source's
`((summary.scenarios.passed / summary.scenarios.total) * 100).toFixed(2)`:
round `passed / total` to the nearest binary64 double, multiply by 100 and
round to a double again, then format that double's exact value with
`toFixed(2)`. -/
def jsSuccessRate (passed total : Nat) : String :=
  let x1 := fl64 passed total
  let q1 := ratTimesPow2 (x1.1 * 100) 1 x1.2
  let x2 := fl64 q1.1 q1.2
  let q2 := ratTimesPow2 x2.1 1 x2.2
  toFixed2OfRat q2.1 q2.2

/-- Integer model of `formatDuration` (src/utils/cucumber-report.ts, lines
189-204); divisions are floor divisions as in the source's `Math.floor`
(durations are nonnegative nanosecond counts). -/
def formatDuration (nanoseconds : Int) : String :=
  let milliseconds := nanoseconds / 1000000
  let seconds := milliseconds / 1000
  let minutes := seconds / 60
  let hours := minutes / 60
  if hours > 0 then
    toString hours ++ "h " ++ toString (minutes % 60) ++ "m " ++ toString (seconds % 60) ++ "s"
  else if minutes > 0 then
    toString minutes ++ "m " ++ toString (seconds % 60) ++ "s"
  else if seconds > 0 then
    toString seconds ++ "s " ++ toString (milliseconds % 1000) ++ "ms"
  else
    toString milliseconds ++ "ms"

/-- The summary record returned by `calculateSummary`. -/
structure Summary where
  features : FeatureCounts
  scenarios : GroupCounts
  steps : GroupCounts
  durationTotal : Int
  durationFormatted : String
  successRate : String
  deriving Repr, DecidableEq

/-- Accumulator for the step loop of `calculateSummary`: the running `steps`
counters and `totalDuration` together with the `scenarioHasFailed`,
`scenarioHasSkipped` and `featureHasFailed` flags. -/
structure StepAcc where
  steps : GroupCounts
  duration : Int
  scenarioHasFailed : Bool
  scenarioHasSkipped : Bool
  featureHasFailed : Bool
  deriving Repr, DecidableEq

/-- One iteration of `scenario.steps.forEach` in `calculateSummary`
(src/utils/cucumber-report.ts, lines 130-155): `steps.total` always
increments; counters and flags move only when the step has a `result` whose
`status` is `passed`/`failed`/`skipped`; a truthy (non-zero) `duration` is
added to the running total. -/
def procStep (a : StepAcc) (st : ReportStep) : StepAcc :=
  let a := { a with steps := { a.steps with total := a.steps.total + 1 } }
  match st.result with
  | none => a
  | some r =>
    let a :=
      match r.duration with
      | some d => if d ≠ 0 then { a with duration := a.duration + d } else a
      | none => a
    if r.status = "passed" then
      { a with steps := { a.steps with passed := a.steps.passed + 1 } }
    else if r.status = "failed" then
      { a with steps := { a.steps with failed := a.steps.failed + 1 },
               scenarioHasFailed := true, featureHasFailed := true }
    else if r.status = "skipped" then
      { a with steps := { a.steps with skipped := a.steps.skipped + 1 },
               scenarioHasSkipped := true }
    else a

/-- Accumulator for the element loop of `calculateSummary`. -/
structure ScenAcc where
  scenarios : GroupCounts
  steps : GroupCounts
  duration : Int
  featureHasFailed : Bool
  deriving Repr, DecidableEq

/-- One iteration of `feature.elements.forEach` in `calculateSummary`
(src/utils/cucumber-report.ts, lines 123-167): elements whose `type` is not
`"scenario"` are ignored entirely; otherwise the steps are processed with
fresh scenario flags and the scenario is classified failed / skipped /
passed. -/
def procScenario (a : ScenAcc) (sc : ReportScenario) : ScenAcc :=
  if sc.type = "scenario" then
    let scTotal := a.scenarios.total + 1
    let sa :=
      (sc.steps.getD []).foldl procStep
        { steps := a.steps, duration := a.duration,
          scenarioHasFailed := false, scenarioHasSkipped := false,
          featureHasFailed := a.featureHasFailed }
    let scenarios :=
      if sa.scenarioHasFailed then
        { a.scenarios with total := scTotal, failed := a.scenarios.failed + 1 }
      else if sa.scenarioHasSkipped then
        { a.scenarios with total := scTotal, skipped := a.scenarios.skipped + 1 }
      else
        { a.scenarios with total := scTotal, passed := a.scenarios.passed + 1 }
    { scenarios := scenarios, steps := sa.steps, duration := sa.duration,
      featureHasFailed := sa.featureHasFailed }
  else a

/-- Accumulator for the feature loop of `calculateSummary`. -/
structure SumAcc where
  features : FeatureCounts
  scenarios : GroupCounts
  steps : GroupCounts
  duration : Int
  deriving Repr, DecidableEq

/-- One iteration of `report.forEach` in `calculateSummary`
(src/utils/cucumber-report.ts, lines 118-176): `features.total` increments,
the elements are processed with a fresh `featureHasFailed` flag, and the
feature is classified failed / passed. -/
def procFeature (a : SumAcc) (f : ReportFeature) : SumAcc :=
  let fTotal := a.features.total + 1
  let sa :=
    (f.elements.getD []).foldl procScenario
      { scenarios := a.scenarios, steps := a.steps, duration := a.duration,
        featureHasFailed := false }
  let features :=
    if sa.featureHasFailed then
      { a.features with total := fTotal, failed := a.features.failed + 1 }
    else
      { a.features with total := fTotal, passed := a.features.passed + 1 }
  { features := features, scenarios := sa.scenarios, steps := sa.steps,
    duration := sa.duration }

/-- Embedding of `CucumberReportGenerator.calculateSummary`
(src/utils/cucumber-report.ts, lines 107-187). -/
def calculateSummary (report : List ReportFeature) : Summary :=
  let a := report.foldl procFeature
    { features := {}, scenarios := {}, steps := {}, duration := 0 }
  { features := a.features, scenarios := a.scenarios, steps := a.steps,
    durationTotal := a.duration,
    durationFormatted := formatDuration a.duration,
    successRate :=
      if a.scenarios.total > 0 then jsSuccessRate a.scenarios.passed a.scenarios.total
      else "0.00" }

/-- `step.result?.status === 'failed'` for a single step. -/
def stepFailed (st : ReportStep) : Bool :=
  match st.result with
  | some r => r.status = "failed"
  | none => false

/-- `step.result?.status === 'skipped'` for a single step. -/
def stepSkipped (st : ReportStep) : Bool :=
  match st.result with
  | some r => r.status = "skipped"
  | none => false

/-- `step.result?.status === 'passed'` for a single step. -/
def stepPassed (st : ReportStep) : Bool :=
  match st.result with
  | some r => r.status = "passed"
  | none => false

/-- The duration contributed by one step (0 when absent). -/
def stepDur (st : ReportStep) : Int :=
  match st.result with
  | some r => r.duration.getD 0
  | none => 0

/-- A scenario element has some step whose result status is `failed`
(`scenario.steps?.some(step => step.result?.status === 'failed')`). -/
def hasFailedStep (sc : ReportScenario) : Bool :=
  (sc.steps.getD []).any stepFailed

/-- A scenario element has some step whose result status is `skipped`. -/
def hasSkippedStep (sc : ReportScenario) : Bool :=
  (sc.steps.getD []).any stepSkipped

/-- An element counted by the summary loops: `type === 'scenario'`. -/
def isScenarioElem (sc : ReportScenario) : Bool :=
  sc.type = "scenario"

/-- Scenario counters of the `AfterAll` hook's summary loop. -/
structure AfterAllCounts where
  totalScenarios : Nat := 0
  passedScenarios : Nat := 0
  failedScenarios : Nat := 0
  skippedScenarios : Nat := 0
  deriving Repr, DecidableEq

/-- Embedding of the summary loop in the `AfterAll` hook (hooks module,
lines 196-223): for each feature, for each element of type `scenario`,
increment the total and classify the scenario as failed (some step result
status `failed`), else skipped (some step result status `skipped`), else
passed. -/
def afterAllSummary (report : List ReportFeature) : AfterAllCounts :=
  report.foldl
    (fun acc feature =>
      (feature.elements.getD []).foldl
        (fun acc scenario =>
          if scenario.type = "scenario" then
            let acc := { acc with totalScenarios := acc.totalScenarios + 1 }
            let hasFailedStep :=
              (scenario.steps.getD []).any (fun step =>
                match step.result with
                | some r => r.status = "failed"
                | none => false)
            let hasSkippedStep :=
              (scenario.steps.getD []).any (fun step =>
                match step.result with
                | some r => r.status = "skipped"
                | none => false)
            if hasFailedStep then
              { acc with failedScenarios := acc.failedScenarios + 1 }
            else if hasSkippedStep then
              { acc with skippedScenarios := acc.skippedScenarios + 1 }
            else
              { acc with passedScenarios := acc.passedScenarios + 1 }
          else acc)
        acc)
    {}

/-! ## Browser manager and lifecycle hooks (src/utils/browserManager.ts,
hooks module) -/

/-- Launch / close events on the underlying browser process, used to state
the "one browser instance at a time" property. -/
inductive BEvent where
  | launch : BEvent
  | close : BEvent
  deriving Repr, DecidableEq

/-- The mutable fields of the `BrowserManager` singleton relevant to the
lifecycle: whether `browser` / `context` / `page` are non-null, the
`isInitialized` flag, and the configured `recordTrace` flag. -/
structure BMState where
  browser : Bool := false
  context : Bool := false
  page : Bool := false
  isInitialized : Bool := false
  recordTrace : Bool := false
  deriving Repr, DecidableEq

/-- `BrowserManager.isReady` (src/utils/browserManager.ts, lines 245-247):
`isInitialized && page !== null`. -/
def isReady (st : BMState) : Bool :=
  st.isInitialized && st.page

/-- Happy-path embedding of `BrowserManager.initializeBrowser`
(src/utils/browserManager.ts, lines 23-52): returns immediately when already
initialized, otherwise launches a browser (emitting `launch`), creates a
context and a page and sets `isInitialized`. -/
def initializeBrowser (st : BMState) : BMState × List BEvent :=
  if st.isInitialized then (st, [])
  else
    ({ st with browser := true, context := true, page := true, isInitialized := true },
     [BEvent.launch])

/-- Which awaited operations inside `cleanup` fail (throw) in a given run. -/
structure CleanupFaults where
  traceStopFails : Bool := false
  pageCloseFails : Bool := false
  contextCloseFails : Bool := false
  browserCloseFails : Bool := false
  deriving Repr, DecidableEq

/-- The `try` block of `BrowserManager.cleanup`
(src/utils/browserManager.ts, lines 201-230), with the failure of each
awaited call injected through `CleanupFaults`.  A thrown error is
`Except.error` carrying the message together with the state and the browser
events produced before the throw; statements after a throw (including the
final `isInitialized = false`) do not run. -/
def cleanupBody (st : BMState) (f : CleanupFaults) :
    Except (String × BMState × List BEvent) (BMState × List BEvent) :=
  if st.recordTrace && st.context && f.traceStopFails then
    Except.error ("trace stop failed", st, [])
  else if st.page && f.pageCloseFails then
    Except.error ("page close failed", st, [])
  else
    let st1 := { st with page := false }
    if st1.context && f.contextCloseFails then
      Except.error ("context close failed", st1, [])
    else
      let st2 := { st1 with context := false }
      if st2.browser && f.browserCloseFails then
        Except.error ("browser close failed", st2, [])
      else
        let events := if st2.browser then [BEvent.close] else []
        Except.ok ({ st2 with browser := false, isInitialized := false }, events)

/-- Embedding of `BrowserManager.cleanup`: the whole body is wrapped in
`try { ... } catch (error) { console.error(...) }`, so a thrown error is
converted into a logged message (third component) and never propagated. -/
def cleanup (st : BMState) (f : CleanupFaults) : BMState × List BEvent × Option String :=
  match cleanupBody st f with
  | Except.ok (s, es) => (s, es, none)
  | Except.error (msg, s, es) => (s, es, some msg)

/-- Embedding of `BrowserManager.takeScreenshot`
(src/utils/browserManager.ts, lines 153-178): warns and returns `null` when
the page is not initialized; otherwise attempts `page.screenshot` (failure
injected through `shotFails`), catching any error and returning `null`;
on success returns the screenshot path. -/
def takeScreenshot (hasPage : Bool) (shotFails : Bool) (name timestamp : String) :
    Option String :=
  if !hasPage then none
  else
    let path := "reports/screenshots/" ++ name ++ "-" ++ timestamp ++ ".png"
    match (if shotFails then Except.error "screenshot failed" else Except.ok ()) with
    | Except.ok _ => some path
    | Except.error _ => none

/-- Embedding of `BrowserManager.navigateToPage`
(src/utils/browserManager.ts, lines 130-151): throws when the page is not
initialized; otherwise resolves the full URL against the configured base URL
and calls `page.goto` (failure injected through `gotoFails`, carrying the
error message `gotoErr`).  On failure the catch block logs
`Navigation failed to <fullUrl>: <error>` and re-throws the caught error
object itself.  Returns the thrown error (if any) and the list of
`console.error` messages. -/
def navigateToPage (hasPage : Bool) (url baseURL : String)
    (gotoFails : Bool) (gotoErr : String) : Except String Unit × List String :=
  if !hasPage then
    (Except.error "Page not initialized. Call initializeBrowser() first.", [])
  else
    let fullUrl := if strStartsWith url "http" then url else baseURL ++ url
    if gotoFails then
      (Except.error gotoErr, ["Navigation failed to " ++ fullUrl ++ ": " ++ gotoErr])
    else
      (Except.ok (), [])

/-- State of the feature-level `Before` hook: the module-level
`currentFeatureUri` variable together with the `BrowserManager` state. -/
structure HookState where
  currentFeatureUri : Option String := none
  bm : BMState := {}
  deriving Repr, DecidableEq

/-- Embedding of the feature-level `Before` hook (hooks module, lines
44-63), on the happy path (no cleanup faults): when the scenario's feature
URI differs from the tracked one, the previous feature's browser is cleaned
up if `currentFeatureUri` is set and the manager is ready, then
`initializeBrowser` runs and the tracked URI is updated; otherwise nothing
happens.  Returns the browser events in program order. -/
def beforeFeatureHook (hs : HookState) (featureUri : String) : HookState × List BEvent :=
  if hs.currentFeatureUri ≠ some featureUri then
    let cleaned : BMState × List BEvent :=
      if hs.currentFeatureUri.isSome && isReady hs.bm then
        let (s, es, _log) := cleanup hs.bm {}
        (s, es)
      else (hs.bm, [])
    let inited := initializeBrowser cleaned.1
    ({ currentFeatureUri := some featureUri, bm := inited.1 },
     cleaned.2 ++ inited.2)
  else (hs, [])

/-- Run the feature-level `Before` hook over a sequence of scenarios, given
by the feature URI of each scenario in order; collects all browser events. -/
def runFeatureHooks (hs : HookState) : List String → HookState × List BEvent
  | [] => (hs, [])
  | u :: us =>
    let (hs1, es1) := beforeFeatureHook hs u
    let (hs2, es2) := runFeatureHooks hs1 us
    (hs2, es1 ++ es2)

/-- The browser events alternate launch / close starting from liveness state
`live`: a launch only happens with no live browser, a close only with one.
`alternates false es = true` is the statement that at every point of the
event sequence at most one browser instance is live. -/
def alternates : Bool → List BEvent → Bool
  | _, [] => true
  | live, BEvent.launch :: rest => !live && alternates true rest
  | live, BEvent.close :: rest => live && alternates false rest

/-! ## Test data generators (src/utils/testDataManager.ts) -/

/-- Decimal digits of `n`, least significant first, with explicit fuel
(`fuel ≥ n` suffices); extensionally equal to `Nat.digits 10 n` (proved
below) but defined by structural recursion so that it evaluates inside
proofs. -/
def natDigitsRev (fuel n : Nat) : List Nat :=
  match fuel with
  | 0 => []
  | f + 1 => if n = 0 then [] else n % 10 :: natDigitsRev f (n / 10)

/-- Model of JS number-to-string conversion for the nonnegative integers
produced by `faker.number.int`: the usual decimal notation, most significant
digit first. -/
def numToString (n : Nat) : String :=
  if n = 0 then "0" else String.mk (((natDigitsRev n n).map Nat.digitChar).reverse)

/-- Embedding of `TestDataManager.generateSSN`
(src/utils/testDataManager.ts, lines 345-347):

    return `${faker.number.int({min:100,max:999})}-${faker.number.int({min:10,max:99})}-${faker.number.int({min:1000,max:9999})}`;

The three faker draws are passed as parameters `a`, `b`, `c`;
`faker.number.int` returns an integer within the inclusive range `[min, max]`. -/
def generateSSN (a b c : Nat) : String :=
  numToString a ++ "-" ++ numToString b ++ "-" ++ numToString c

/-- The three draws of `generateSSN` lie in the ranges requested from
`faker.number.int`. -/
def ssnDrawsInRange (a b c : Nat) : Prop :=
  (100 ≤ a ∧ a ≤ 999) ∧ (10 ≤ b ∧ b ≤ 99) ∧ (1000 ≤ c ∧ c ≤ 9999)

/-- An SSN-shaped string: three decimal digits, a hyphen, two decimal
digits, a hyphen, four decimal digits. -/
def ssnShaped (s : String) : Bool :=
  match s.data with
  | [a, b, c, h1, d, e, h2, f, g, h, i] =>
    a.isDigit && b.isDigit && c.isDigit && h1 = '-' && d.isDigit && e.isDigit &&
    h2 = '-' && f.isDigit && g.isDigit && h.isDigit && i.isDigit
  | _ => false

/-- The faker draws consumed by one call of `generateInsuranceCustomer`
(src/utils/testDataManager.ts, lines 153-207), one field per draw, named
after the customer field each draw fills.  `Date` values are modelled by
their year, which is all the generator's own arithmetic uses. -/
structure CustomerRandoms where
  firstName : String := ""
  lastName : String := ""
  email : String := ""
  phone : String := ""
  dobYear : Int := 0
  currentYear : Int := 0
  ssn1 : Nat := 0
  ssn2 : Nat := 0
  ssn3 : Nat := 0
  maritalStatus : String := ""
  gender : String := ""
  street : String := ""
  city : String := ""
  state : String := ""
  zipCode : String := ""
  company : String := ""
  position : String := ""
  industry : String := ""
  annualIncome : Int := 0
  employmentType : String := ""
  yearsAtJob : Int := 0
  creditScore : Int := 0
  annualIncome2 : Int := 0
  monthlyDebt : Int := 0
  bankAccount : String := ""
  routingNumber : String := ""

/-- The `personalInfo` sub-record built by `generateInsuranceCustomer`. -/
def personalInfoFields (r : CustomerRandoms) : List (String × JSValue) :=
  [("firstName", JSValue.str r.firstName),
   ("lastName", JSValue.str r.lastName),
   ("fullName", JSValue.str (r.firstName ++ " " ++ r.lastName)),
   ("email", JSValue.str r.email),
   ("phone", JSValue.str r.phone),
   ("dateOfBirth", JSValue.num r.dobYear),
   ("age", JSValue.num (r.currentYear - r.dobYear)),
   ("ssn", JSValue.str (generateSSN r.ssn1 r.ssn2 r.ssn3)),
   ("maritalStatus", JSValue.str r.maritalStatus),
   ("gender", JSValue.str r.gender)]

/-- The `address` sub-record built by `generateInsuranceCustomer`.  The
source first sets `fullAddress` to `''` and then, still before the merge
with the overrides, overwrites it with
`` `${street}, ${city}, ${state} ${zipCode}` ``; the model constructs the
field with its pre-merge value directly. -/
def addressFields (r : CustomerRandoms) : List (String × JSValue) :=
  [("street", JSValue.str r.street),
   ("city", JSValue.str r.city),
   ("state", JSValue.str r.state),
   ("zipCode", JSValue.str r.zipCode),
   ("country", JSValue.str "USA"),
   ("fullAddress",
     JSValue.str (r.street ++ ", " ++ r.city ++ ", " ++ r.state ++ " " ++ r.zipCode))]

/-- The customer record built by `generateInsuranceCustomer` before the
override merge. -/
def customerFields (r : CustomerRandoms) : List (String × JSValue) :=
  [("personalInfo", JSValue.obj (personalInfoFields r)),
   ("address", JSValue.obj (addressFields r)),
   ("employment", JSValue.obj [
      ("company", JSValue.str r.company),
      ("position", JSValue.str r.position),
      ("industry", JSValue.str r.industry),
      ("annualIncome", JSValue.num r.annualIncome),
      ("employmentType", JSValue.str r.employmentType),
      ("yearsAtJob", JSValue.num r.yearsAtJob)]),
   ("financials", JSValue.obj [
      ("creditScore", JSValue.num r.creditScore),
      ("annualIncome", JSValue.num r.annualIncome2),
      ("monthlyDebt", JSValue.num r.monthlyDebt),
      ("bankAccount", JSValue.str r.bankAccount),
      ("routingNumber", JSValue.str r.routingNumber)])]

/-- Embedding of `TestDataManager.generateInsuranceCustomer`
(src/utils/testDataManager.ts, lines 153-207): builds the customer record
from the faker draws `r` and returns `deepMerge(customer, overrides)`. -/
def generateInsuranceCustomer (r : CustomerRandoms) (overrides : JSValue) : JSValue :=
  deepMerge (JSValue.obj (customerFields r)) overrides

/-- The `ssn` field of a generated customer value. -/
def customerSSN (v : JSValue) : JSValue :=
  lookupField (lookupField v.fields "personalInfo").fields "ssn"

/-- The `address.fullAddress` field of a generated customer value. -/
def customerFullAddress (v : JSValue) : JSValue :=
  lookupField (lookupField v.fields "address").fields "fullAddress"

/-- The `address.street` field of a generated customer value. -/
def customerStreet (v : JSValue) : JSValue :=
  lookupField (lookupField v.fields "address").fields "street"

/-! ## Spec-side counting functions for the report summary -/

/-- The steps list of a scenario element (empty when absent). -/
def scenarioSteps (sc : ReportScenario) : List ReportStep := sc.steps.getD []

/-- The elements list of a feature (empty when absent). -/
def elemsOf (f : ReportFeature) : List ReportScenario := f.elements.getD []

/-- A scenario classified `skipped`: no failed step but some skipped step. -/
def scenarioClassifiedSkipped (sc : ReportScenario) : Bool :=
  !hasFailedStep sc && hasSkippedStep sc

/-- A scenario classified `passed`: no failed and no skipped step. -/
def scenarioClassifiedPassed (sc : ReportScenario) : Bool :=
  !hasFailedStep sc && !hasSkippedStep sc

/-- Number of elements of type `scenario` satisfying `p` in an element
list. -/
def countElems (p : ReportScenario → Bool) (l : List ReportScenario) : Nat :=
  l.countP (fun sc => isScenarioElem sc && p sc)

/-- Number of scenario elements satisfying `p` in a whole report. -/
def countScenarios (p : ReportScenario → Bool) : List ReportFeature → Nat
  | [] => 0
  | f :: rest => countElems p (elemsOf f) + countScenarios p rest

/-- Number of steps satisfying `p` inside the scenario elements of an
element list. -/
def stepCountElems (p : ReportStep → Bool) (l : List ReportScenario) : Nat :=
  l.foldr (fun sc acc =>
    (if isScenarioElem sc then (scenarioSteps sc).countP p else 0) + acc) 0

/-- Number of steps satisfying `p` inside the scenario elements of a whole
report. -/
def stepCountScenarios (p : ReportStep → Bool) : List ReportFeature → Nat
  | [] => 0
  | f :: rest => stepCountElems p (elemsOf f) + stepCountScenarios p rest

/-- Total number of steps inside the scenario elements of an element
list. -/
def stepLenElems (l : List ReportScenario) : Nat :=
  l.foldr (fun sc acc =>
    (if isScenarioElem sc then (scenarioSteps sc).length else 0) + acc) 0

/-- Total number of steps inside the scenario elements of a whole
report. -/
def stepLenScenarios : List ReportFeature → Nat
  | [] => 0
  | f :: rest => stepLenElems (elemsOf f) + stepLenScenarios rest

/-- Total duration of the steps inside the scenario elements of an element
list. -/
def durElems (l : List ReportScenario) : Int :=
  l.foldr (fun sc acc =>
    (if isScenarioElem sc then ((scenarioSteps sc).map stepDur).sum else 0) + acc) 0

/-- Total duration of the steps inside the scenario elements of a whole
report. -/
def durScenarios : List ReportFeature → Int
  | [] => 0
  | f :: rest => durElems (elemsOf f) + durScenarios rest

/-- A feature that contains a failed scenario (a scenario element with some
step whose result status is `failed`). -/
def featureFailed (f : ReportFeature) : Bool :=
  (elemsOf f).any (fun sc => isScenarioElem sc && hasFailedStep sc)

/-- A one-feature report whose single scenario has one step with result
status `pending`: counted in `steps.total` but in none of the
passed/failed/skipped step counters. -/
def pendingStepReport : List ReportFeature :=
  [{ elements := some [{ type := "scenario",
                         steps := some [{ result := some { status := "pending" } }] }] }]

/-- Liveness state of the browser process after a list of events, starting
from `live`. -/
def liveAfter : Bool → List BEvent → Bool
  | live, [] => live
  | _, BEvent.launch :: rest => liveAfter true rest
  | _, BEvent.close :: rest => liveAfter false rest

/-- Invariant of the feature-level hook: `browser`, `context`, `page` and
`isInitialized` all track whether a browser instance is live, and no
browser is live before the first feature is seen. -/
def hookInv (live : Bool) (hs : HookState) : Prop :=
  hs.bm.browser = live ∧ hs.bm.context = live ∧ hs.bm.page = live ∧
    hs.bm.isInitialized = live ∧ (hs.currentFeatureUri = none → live = false)

/-- A scenario element whose single step passed. -/
def passedOnlyScenario : ReportScenario :=
  { type := "scenario", steps := some [{ result := some { status := "passed" } }] }

/-- A scenario element whose single step was skipped. -/
def skippedOnlyScenario : ReportScenario :=
  { type := "scenario", steps := some [{ result := some { status := "skipped" } }] }

/-- A one-feature report with 23 passed and 137 skipped scenarios: the exact
ratio `(23 / 160) * 100` is `14.375`, but the IEEE-754 double computed by
the program is `14.374999999999998…`, so its `toFixed(2)` prints `"14.37"`
while exact two-decimal (half-up) rounding of the ratio gives `"14.38"`. -/
def successRateReport : List ReportFeature :=
  [{ elements := some (List.replicate 23 passedOnlyScenario ++
      List.replicate 137 skippedOnlyScenario) }]

/-! ## Lemmas about `deepMerge` -/

theorem isUndefined_eq_false_iff (v : JSValue) : v.isUndefined = false ↔ v ≠ JSValue.undef := by
  cases v <;> simp [JSValue.isUndefined]

theorem lookupField_setKey_self (fs : List (String × JSValue)) (k : String) (v : JSValue) :
    lookupField (setKey fs k v) k = v := by
  induction fs with
  | nil => simp [setKey, lookupField]
  | cons hd tl ih =>
    obtain ⟨k1, v1⟩ := hd
    by_cases h : k1 = k <;> simp [setKey, lookupField, h, ih]

theorem lookupField_setKey_ne (fs : List (String × JSValue)) (k k2 : String) (v : JSValue)
    (hne : k ≠ k2) : lookupField (setKey fs k v) k2 = lookupField fs k2 := by
  induction fs with
  | nil => simp [setKey, lookupField, hne]
  | cons hd tl ih =>
    obtain ⟨k1, v1⟩ := hd
    by_cases h : k1 = k
    · subst h; simp [setKey, lookupField, hne]
    · simp [setKey, lookupField, h, ih]

theorem lookupField_mem (fs : List (String × JSValue)) (k : String) (v : JSValue)
    (h : lookupField fs k = v) (hv : v ≠ JSValue.undef) : (k, v) ∈ fs := by
  induction fs with
  | nil => simp [lookupField] at h; exact absurd h.symm hv
  | cons hd tl ih =>
    obtain ⟨k1, v1⟩ := hd
    by_cases hk : k1 = k
    · subst hk
      simp [lookupField] at h
      subst h
      exact List.mem_cons_self _ _
    · simp [lookupField, hk] at h
      exact List.mem_cons_of_mem _ (ih h)

theorem mergeLoop_lookup_skip (sf : List (String × JSValue))
    (tf acc : List (String × JSValue)) (k : String)
    (h : ∀ v, (k, v) ∈ sf → v = JSValue.undef) :
    lookupField (mergeLoop tf acc sf) k = lookupField acc k := by
  induction sf generalizing acc with
  | nil => rfl
  | cons hd rest ih =>
    obtain ⟨key, sv⟩ := hd
    by_cases hu : sv.isUndefined
    · rw [mergeLoop, if_pos hu]
      exact ih acc fun v hv => h v (List.mem_cons_of_mem _ hv)
    · rw [mergeLoop, if_neg hu]
      by_cases hk : key = k
      · subst hk
        exact absurd ((isUndefined_eq_false_iff sv).mp (Bool.eq_false_iff.mpr hu)
          (h sv (List.mem_cons_self _ _))) (by simp_all)
      · rw [ih _ fun v hv => h v (List.mem_cons_of_mem _ hv)]
        exact lookupField_setKey_ne _ _ _ _ hk

theorem mergeLoop_lookup_mem (sf : List (String × JSValue))
    (tf acc : List (String × JSValue)) (k : String) (sv : JSValue)
    (hnd : (sf.map Prod.fst).Nodup) (hmem : (k, sv) ∈ sf) (hu : sv.isUndefined = false) :
    lookupField (mergeLoop tf acc sf) k =
      (if sv.isObjectNotNull && (lookupField tf k).isObjectNotNull
       then deepMerge (lookupField tf k) sv else sv) := by
  induction sf generalizing acc with
  | nil => simp at hmem
  | cons hd rest ih =>
    obtain ⟨key, v⟩ := hd
    simp only [List.map_cons, List.nodup_cons] at hnd
    rcases List.mem_cons.mp hmem with heq | hrest
    · injection heq with h1 h2
      subst h1
      subst h2
      rw [mergeLoop, if_neg (by simp [hu])]
      rw [mergeLoop_lookup_skip]
      · exact lookupField_setKey_self ..
      · intro w hw
        exact absurd (List.mem_map_of_mem Prod.fst hw) hnd.1
    · have hk : key ≠ k := by
        intro hkk
        subst hkk
        exact hnd.1 (List.mem_map_of_mem Prod.fst hrest)
      by_cases hvu : v.isUndefined
      · rw [mergeLoop, if_pos hvu]
        exact ih acc hnd.2 hrest
      · rw [mergeLoop, if_neg hvu]
        exact ih _ hnd.2 hrest

theorem lookupField_of_mem_nodup (fs : List (String × JSValue)) (k : String) (v : JSValue)
    (hnd : (fs.map Prod.fst).Nodup) (hmem : (k, v) ∈ fs) : lookupField fs k = v := by
  induction fs with
  | nil => simp at hmem
  | cons hd rest ih =>
    obtain ⟨k1, v1⟩ := hd
    simp only [List.map_cons, List.nodup_cons] at hnd
    rcases List.mem_cons.mp hmem with heq | hrest
    · injection heq with h1 h2
      subst h1
      subst h2
      simp [lookupField]
    · have hk : k1 ≠ k := by
        intro hkk
        subst hkk
        exact hnd.1 (List.mem_map_of_mem Prod.fst hrest)
      simp only [lookupField, if_neg hk]
      exact ih hnd.2 hrest

/-- **C1**: for every target record `tf` and override record `sf` (a JS
object: no duplicate keys) and every key `k`, `deepMerge` keeps the target's
value when the override's value at `k` is absent or `undefined`; overwrites
with the override's value when it is defined and either side is not a
non-null object; merges recursively when both sides are non-null objects;
and the target is returned unchanged when the override is the empty
record. -/
theorem deepMerge_override_semantics (tf sf : List (String × JSValue)) (k : String)
    (hnd : (sf.map Prod.fst).Nodup) :
    (lookupField sf k = JSValue.undef →
       lookupField (deepMerge (JSValue.obj tf) (JSValue.obj sf)).fields k = lookupField tf k)
  ∧ (∀ sv, lookupField sf k = sv → sv ≠ JSValue.undef →
       (sv.isObjectNotNull && (lookupField tf k).isObjectNotNull) = false →
       lookupField (deepMerge (JSValue.obj tf) (JSValue.obj sf)).fields k = sv)
  ∧ (∀ sv, lookupField sf k = sv → sv.isObjectNotNull = true →
       (lookupField tf k).isObjectNotNull = true →
       lookupField (deepMerge (JSValue.obj tf) (JSValue.obj sf)).fields k
         = deepMerge (lookupField tf k) sv)
  ∧ (∀ t, deepMerge t (JSValue.obj []) = t) := by
  refine ⟨?_, ?_, ?_, ?_⟩
  · intro h
    show lookupField (mergeLoop tf tf sf) k = lookupField tf k
    apply mergeLoop_lookup_skip
    intro v hv
    rw [← lookupField_of_mem_nodup sf k v hnd hv]
    exact h
  · intro sv hsv hne hcond
    have hmem : (k, sv) ∈ sf := lookupField_mem sf k sv hsv hne
    have hu : sv.isUndefined = false := (isUndefined_eq_false_iff sv).mpr hne
    show lookupField (mergeLoop tf tf sf) k = sv
    rw [mergeLoop_lookup_mem sf tf tf k sv hnd hmem hu, if_neg (by simp [hcond])]
  · intro sv hsv hsobj htobj
    have hne : sv ≠ JSValue.undef := by
      intro h
      subst h
      simp [JSValue.isObjectNotNull] at hsobj
    have hmem : (k, sv) ∈ sf := lookupField_mem sf k sv hsv hne
    have hu : sv.isUndefined = false := (isUndefined_eq_false_iff sv).mpr hne
    show lookupField (mergeLoop tf tf sf) k = deepMerge (lookupField tf k) sv
    rw [mergeLoop_lookup_mem sf tf tf k sv hnd hmem hu, if_pos (by simp [hsobj, htobj])]
  · intro t
    cases t <;> rfl

theorem deepMerge_override_semantics_witness :
    lookupField (deepMerge (JSValue.obj [("a", JSValue.num 1)])
      (JSValue.obj [("a", JSValue.num 2)])).fields "a" = JSValue.num 2 :=
  (deepMerge_override_semantics [("a", JSValue.num 1)] [("a", JSValue.num 2)] "a"
    (by simp)).2.1 (JSValue.num 2) rfl (fun h => JSValue.noConfusion h) rfl

/-! ## Lemmas about `validateConfig` -/

/-- **C2**: for every environment, `validateConfig` throws if and only if
the resolved browser name is not one of chromium / firefox / webkit /
chrome, or the resolved base URL does not start with "http", or the
resolved viewport width is below 320 or height below 240 (a `NaN` produced
by `parseInt` compares false and so never triggers the viewport error);
and on a normal return the warning list is nonempty exactly when the
resolved timeout is below 1000, so a small timeout only warns, never
throws. -/
theorem validateConfig_error_characterization (env : Env) :
    ((validateConfig env).isOk = true ↔
      (validBrowsers.contains (jsOr env.BROWSER "chromium") = true
        ∧ strStartsWith (jsOr env.BASE_URL "http://localhost:3000") "http" = true
        ∧ jsLt (jsParseInt (jsOr env.VIEWPORT_WIDTH "1920")) 320 = false
        ∧ jsLt (jsParseInt (jsOr env.VIEWPORT_HEIGHT "1080")) 240 = false))
  ∧ (∀ ws, validateConfig env = Except.ok ws →
      (jsLt (jsParseInt (jsOr env.TIMEOUT "60000")) 1000 = true ↔ ws ≠ [])) := by
  constructor
  · simp only [validateConfig, getBrowserConfig, getTestConfig]
    by_cases h1 : jsOr env.BROWSER "chromium" ∈ validBrowsers <;>
      by_cases h2 : strStartsWith (jsOr env.BASE_URL "http://localhost:3000") "http" <;>
      by_cases h3 : jsLt (jsParseInt (jsOr env.VIEWPORT_WIDTH "1920")) 320 <;>
      by_cases h4 : jsLt (jsParseInt (jsOr env.VIEWPORT_HEIGHT "1080")) 240 <;>
      simp [h1, h2, h3, h4, Except.isOk, Except.toBool, List.elem_eq_mem]
  · intro ws hws
    simp only [validateConfig, getBrowserConfig, getTestConfig] at hws
    by_cases h1 : jsOr env.BROWSER "chromium" ∈ validBrowsers <;>
      by_cases h2 : strStartsWith (jsOr env.BASE_URL "http://localhost:3000") "http" <;>
      by_cases h3 : jsLt (jsParseInt (jsOr env.VIEWPORT_WIDTH "1920")) 320 ||
        jsLt (jsParseInt (jsOr env.VIEWPORT_HEIGHT "1080")) 240 <;>
      by_cases h5 : jsLt (jsParseInt (jsOr env.TIMEOUT "60000")) 1000 <;>
      simp [h1, h2, h3, h5, List.elem_eq_mem] at hws <;>
      simp [h5, ← hws]

theorem validateConfig_error_characterization_witness :
    (validateConfig { TIMEOUT := some "200" }).isOk = true ∧
    (jsLt (jsParseInt (jsOr (Env.TIMEOUT { TIMEOUT := some "200" }) "60000")) 1000 = true ↔
      (["Warning: Timeout is less than 1 second, this might cause issues"] : List String) ≠ []) :=
  ⟨(validateConfig_error_characterization { TIMEOUT := some "200" }).1.mpr
      ⟨by decide, by decide, by decide, by decide⟩,
    (validateConfig_error_characterization { TIMEOUT := some "200" }).2
      ["Warning: Timeout is less than 1 second, this might cause issues"] rfl⟩

/-! ## Lemmas about `calculateSummary` -/

theorem procStep_char (a : StepAcc) (st : ReportStep) :
    procStep a st = {
      steps := { total := a.steps.total + 1,
                 passed := a.steps.passed + (if stepPassed st then 1 else 0),
                 failed := a.steps.failed + (if stepFailed st then 1 else 0),
                 skipped := a.steps.skipped + (if stepSkipped st then 1 else 0) },
      duration := a.duration + stepDur st,
      scenarioHasFailed := a.scenarioHasFailed || stepFailed st,
      scenarioHasSkipped := a.scenarioHasSkipped || stepSkipped st,
      featureHasFailed := a.featureHasFailed || stepFailed st } := by
  obtain ⟨res⟩ := st
  cases res with
  | none => simp [procStep, stepPassed, stepFailed, stepSkipped, stepDur]
  | some r =>
    obtain ⟨status, dur⟩ := r
    by_cases hp : status = "passed" <;> by_cases hf : status = "failed" <;>
      by_cases hs : status = "skipped" <;>
      cases dur <;>
      simp_all [procStep, stepPassed, stepFailed, stepSkipped, stepDur] <;>
      split_ifs <;> simp_all

theorem foldl_procStep_char (l : List ReportStep) (a : StepAcc) :
    l.foldl procStep a = {
      steps := { total := a.steps.total + l.length,
                 passed := a.steps.passed + l.countP stepPassed,
                 failed := a.steps.failed + l.countP stepFailed,
                 skipped := a.steps.skipped + l.countP stepSkipped },
      duration := a.duration + (l.map stepDur).sum,
      scenarioHasFailed := a.scenarioHasFailed || l.any stepFailed,
      scenarioHasSkipped := a.scenarioHasSkipped || l.any stepSkipped,
      featureHasFailed := a.featureHasFailed || l.any stepFailed } := by
  induction l generalizing a with
  | nil => simp
  | cons hd tl ih =>
    rw [List.foldl_cons, procStep_char, ih]
    simp [List.countP_cons, List.any_cons]
    refine ⟨⟨?_, ?_, ?_, ?_⟩, ?_, ?_, ?_, ?_⟩ <;> first | omega | simp [Bool.or_assoc]

theorem procScenario_char (a : ScenAcc) (sc : ReportScenario) :
    procScenario a sc =
      if isScenarioElem sc then
        { scenarios :=
            { total := a.scenarios.total + 1,
              passed := a.scenarios.passed + (if scenarioClassifiedPassed sc then 1 else 0),
              failed := a.scenarios.failed + (if hasFailedStep sc then 1 else 0),
              skipped := a.scenarios.skipped + (if scenarioClassifiedSkipped sc then 1 else 0) },
          steps :=
            { total := a.steps.total + (scenarioSteps sc).length,
              passed := a.steps.passed + (scenarioSteps sc).countP stepPassed,
              failed := a.steps.failed + (scenarioSteps sc).countP stepFailed,
              skipped := a.steps.skipped + (scenarioSteps sc).countP stepSkipped },
          duration := a.duration + ((scenarioSteps sc).map stepDur).sum,
          featureHasFailed := a.featureHasFailed || hasFailedStep sc }
      else a := by
  by_cases hty : isScenarioElem sc
  · rw [if_pos hty]
    have hty2 : sc.type = "scenario" := by
      simpa [isScenarioElem] using hty
    rw [procScenario, if_pos hty2, foldl_procStep_char]
    simp only [hasFailedStep, hasSkippedStep, scenarioClassifiedPassed,
      scenarioClassifiedSkipped, scenarioSteps, Bool.false_or]
    by_cases hfl : (sc.steps.getD []).any stepFailed <;>
      by_cases hsk : (sc.steps.getD []).any stepSkipped <;>
      simp [hfl, hsk]
  · rw [if_neg hty, procScenario,
      if_neg (by simpa [isScenarioElem] using hty)]

theorem foldl_procScenario_char (l : List ReportScenario) (a : ScenAcc) :
    l.foldl procScenario a = {
      scenarios :=
        { total := a.scenarios.total + countElems (fun _ => true) l,
          passed := a.scenarios.passed + countElems scenarioClassifiedPassed l,
          failed := a.scenarios.failed + countElems hasFailedStep l,
          skipped := a.scenarios.skipped + countElems scenarioClassifiedSkipped l },
      steps :=
        { total := a.steps.total + stepLenElems l,
          passed := a.steps.passed + stepCountElems stepPassed l,
          failed := a.steps.failed + stepCountElems stepFailed l,
          skipped := a.steps.skipped + stepCountElems stepSkipped l },
      duration := a.duration + durElems l,
      featureHasFailed :=
        a.featureHasFailed || l.any (fun sc => isScenarioElem sc && hasFailedStep sc) } := by
  induction l generalizing a with
  | nil => simp [countElems, stepCountElems, stepLenElems, durElems]
  | cons hd tl ih =>
    rw [List.foldl_cons, procScenario_char, ih]
    by_cases hty : isScenarioElem hd <;>
      by_cases hfl : hasFailedStep hd <;>
      simp [hty, hfl, countElems, stepCountElems, stepLenElems, durElems,
        List.countP_cons, scenarioClassifiedPassed, scenarioClassifiedSkipped] <;>
      omega

theorem procFeature_char (a : SumAcc) (f : ReportFeature) :
    procFeature a f = {
      features :=
        { total := a.features.total + 1,
          passed := a.features.passed + (if featureFailed f then 0 else 1),
          failed := a.features.failed + (if featureFailed f then 1 else 0) },
      scenarios :=
        { total := a.scenarios.total + countElems (fun _ => true) (elemsOf f),
          passed := a.scenarios.passed + countElems scenarioClassifiedPassed (elemsOf f),
          failed := a.scenarios.failed + countElems hasFailedStep (elemsOf f),
          skipped := a.scenarios.skipped + countElems scenarioClassifiedSkipped (elemsOf f) },
      steps :=
        { total := a.steps.total + stepLenElems (elemsOf f),
          passed := a.steps.passed + stepCountElems stepPassed (elemsOf f),
          failed := a.steps.failed + stepCountElems stepFailed (elemsOf f),
          skipped := a.steps.skipped + stepCountElems stepSkipped (elemsOf f) },
      duration := a.duration + durElems (elemsOf f) } := by
  rw [procFeature]
  have : f.elements.getD [] = elemsOf f := rfl
  rw [this, foldl_procScenario_char]
  by_cases hff : featureFailed f
  · have : (elemsOf f).any (fun sc => isScenarioElem sc && hasFailedStep sc) = true := hff
    simp [this, hff]
  · have : (elemsOf f).any (fun sc => isScenarioElem sc && hasFailedStep sc) = false :=
      Bool.eq_false_iff.mpr hff
    simp [this, hff]

theorem foldl_procFeature_char (report : List ReportFeature) (a : SumAcc) :
    report.foldl procFeature a = {
      features :=
        { total := a.features.total + report.length,
          passed := a.features.passed + report.countP (fun f => !featureFailed f),
          failed := a.features.failed + report.countP featureFailed },
      scenarios :=
        { total := a.scenarios.total + countScenarios (fun _ => true) report,
          passed := a.scenarios.passed + countScenarios scenarioClassifiedPassed report,
          failed := a.scenarios.failed + countScenarios hasFailedStep report,
          skipped := a.scenarios.skipped + countScenarios scenarioClassifiedSkipped report },
      steps :=
        { total := a.steps.total + stepLenScenarios report,
          passed := a.steps.passed + stepCountScenarios stepPassed report,
          failed := a.steps.failed + stepCountScenarios stepFailed report,
          skipped := a.steps.skipped + stepCountScenarios stepSkipped report },
      duration := a.duration + durScenarios report } := by
  induction report generalizing a with
  | nil => simp [countScenarios, stepCountScenarios, stepLenScenarios, durScenarios]
  | cons hd tl ih =>
    rw [List.foldl_cons, procFeature_char, ih]
    by_cases hff : featureFailed hd <;>
      simp [hff, countScenarios, stepCountScenarios, stepLenScenarios, durScenarios,
        List.countP_cons] <;>
      omega

theorem calculateSummary_char (report : List ReportFeature) :
    calculateSummary report = {
      features :=
        { total := report.length,
          passed := report.countP (fun f => !featureFailed f),
          failed := report.countP featureFailed },
      scenarios :=
        { total := countScenarios (fun _ => true) report,
          passed := countScenarios scenarioClassifiedPassed report,
          failed := countScenarios hasFailedStep report,
          skipped := countScenarios scenarioClassifiedSkipped report },
      steps :=
        { total := stepLenScenarios report,
          passed := stepCountScenarios stepPassed report,
          failed := stepCountScenarios stepFailed report,
          skipped := stepCountScenarios stepSkipped report },
      durationTotal := durScenarios report,
      durationFormatted := formatDuration (durScenarios report),
      successRate :=
        if 0 < countScenarios (fun _ => true) report then
          jsSuccessRate (countScenarios scenarioClassifiedPassed report)
            (countScenarios (fun _ => true) report)
        else "0.00" } := by
  rw [calculateSummary, foldl_procFeature_char]
  simp

theorem afterAll_elem_fold_char (l : List ReportScenario) (acc : AfterAllCounts) :
    l.foldl
      (fun acc scenario =>
        if scenario.type = "scenario" then
          let acc := { acc with totalScenarios := acc.totalScenarios + 1 }
          let hasFailedStep :=
            (scenario.steps.getD []).any (fun step =>
              match step.result with
              | some r => r.status = "failed"
              | none => false)
          let hasSkippedStep :=
            (scenario.steps.getD []).any (fun step =>
              match step.result with
              | some r => r.status = "skipped"
              | none => false)
          if hasFailedStep then
            { acc with failedScenarios := acc.failedScenarios + 1 }
          else if hasSkippedStep then
            { acc with skippedScenarios := acc.skippedScenarios + 1 }
          else
            { acc with passedScenarios := acc.passedScenarios + 1 }
        else acc)
      acc = {
        totalScenarios := acc.totalScenarios + countElems (fun _ => true) l,
        passedScenarios := acc.passedScenarios + countElems scenarioClassifiedPassed l,
        failedScenarios := acc.failedScenarios + countElems hasFailedStep l,
        skippedScenarios := acc.skippedScenarios + countElems scenarioClassifiedSkipped l } := by
  induction l generalizing acc with
  | nil => simp [countElems]
  | cons hd tl ih =>
    rw [List.foldl_cons, ih]
    have hfl : ((hd.steps.getD []).any (fun step =>
        match step.result with
        | some r => r.status = "failed"
        | none => false)) = hasFailedStep hd := rfl
    have hsk : ((hd.steps.getD []).any (fun step =>
        match step.result with
        | some r => r.status = "skipped"
        | none => false)) = hasSkippedStep hd := rfl
    by_cases hty : hd.type = "scenario" <;>
      by_cases hf2 : hasFailedStep hd <;>
      by_cases hs2 : hasSkippedStep hd <;>
      simp [hty, hfl, hsk, hf2, hs2, countElems, List.countP_cons, isScenarioElem,
        scenarioClassifiedPassed, scenarioClassifiedSkipped] <;>
      omega

theorem afterAllSummary_char (report : List ReportFeature) :
    afterAllSummary report = {
      totalScenarios := countScenarios (fun _ => true) report,
      passedScenarios := countScenarios scenarioClassifiedPassed report,
      failedScenarios := countScenarios hasFailedStep report,
      skippedScenarios := countScenarios scenarioClassifiedSkipped report } := by
  suffices h : ∀ acc : AfterAllCounts, report.foldl
      (fun acc feature =>
        (feature.elements.getD []).foldl
          (fun acc scenario =>
            if scenario.type = "scenario" then
              let acc := { acc with totalScenarios := acc.totalScenarios + 1 }
              let hasFailedStep :=
                (scenario.steps.getD []).any (fun step =>
                  match step.result with
                  | some r => r.status = "failed"
                  | none => false)
              let hasSkippedStep :=
                (scenario.steps.getD []).any (fun step =>
                  match step.result with
                  | some r => r.status = "skipped"
                  | none => false)
              if hasFailedStep then
                { acc with failedScenarios := acc.failedScenarios + 1 }
              else if hasSkippedStep then
                { acc with skippedScenarios := acc.skippedScenarios + 1 }
              else
                { acc with passedScenarios := acc.passedScenarios + 1 }
            else acc)
          acc)
      acc = {
        totalScenarios := acc.totalScenarios + countScenarios (fun _ => true) report,
        passedScenarios := acc.passedScenarios + countScenarios scenarioClassifiedPassed report,
        failedScenarios := acc.failedScenarios + countScenarios hasFailedStep report,
        skippedScenarios := acc.skippedScenarios + countScenarios scenarioClassifiedSkipped report } by
    rw [afterAllSummary, h {}]
    simp
  intro acc
  induction report generalizing acc with
  | nil => simp [countScenarios]
  | cons hd tl ih =>
    rw [List.foldl_cons, afterAll_elem_fold_char, ih]
    simp [countScenarios, elemsOf]
    omega

/-- **C3 (amended)**: `calculateSummary` classifies each scenario element
as failed when some step has result status `failed`, else skipped when some
step has result status `skipped`, else passed; a feature is failed exactly
when it contains a failed scenario; and `successRate` is the ECMAScript
`toFixed(2)` rendering of the IEEE-754 double `(passed / total) * 100`
(which can differ in the last digit from exact two-decimal rounding of the
ratio, e.g. 23 of 160 renders `"14.37"`, not `"14.38"`), with `"0.00"` for
an empty scenario count. -/
theorem calculateSummary_classification (report : List ReportFeature) :
    ((calculateSummary report).scenarios.total = countScenarios (fun _ => true) report)
  ∧ ((calculateSummary report).scenarios.failed = countScenarios hasFailedStep report)
  ∧ ((calculateSummary report).scenarios.skipped =
      countScenarios scenarioClassifiedSkipped report)
  ∧ ((calculateSummary report).scenarios.passed =
      countScenarios scenarioClassifiedPassed report)
  ∧ ((calculateSummary report).features.total = report.length)
  ∧ ((calculateSummary report).features.failed = report.countP featureFailed)
  ∧ ((calculateSummary report).features.passed = report.countP (fun f => !featureFailed f))
  ∧ ((calculateSummary report).successRate =
      if (calculateSummary report).scenarios.total = 0 then "0.00"
      else jsSuccessRate (calculateSummary report).scenarios.passed
        (calculateSummary report).scenarios.total) := by
  rw [calculateSummary_char]
  refine ⟨rfl, rfl, rfl, rfl, rfl, rfl, rfl, ?_⟩
  by_cases h : countScenarios (fun _ => true) report = 0 <;>
    simp [h, Nat.pos_iff_ne_zero]

set_option maxRecDepth 8000 in
/-- **C3 counterexample**: on a report with 23 passed scenarios out of 160,
the program computes `successRate` with IEEE-754 doubles and `toFixed(2)`
and prints `"14.37"`, whereas `(23 / 160) * 100` rendered with two decimal
places is `"14.38"` (the exact ratio is `14.375`): the claim's successRate
clause is false of the program at this input. -/
theorem calculateSummary_successRate_counterexample :
    ((calculateSummary successRateReport).scenarios.passed = 23)
  ∧ ((calculateSummary successRateReport).scenarios.total = 160)
  ∧ ((calculateSummary successRateReport).successRate = "14.37")
  ∧ (renderRate 23 160 = "14.38") := by
  refine ⟨?_, ?_, ?_, ?_⟩ <;> decide

theorem countElems_partition (l : List ReportScenario) :
    countElems hasFailedStep l + countElems scenarioClassifiedSkipped l +
      countElems scenarioClassifiedPassed l = countElems (fun _ => true) l := by
  induction l with
  | nil => rfl
  | cons hd tl ih =>
    by_cases hty : isScenarioElem hd <;>
      by_cases hf : hasFailedStep hd <;>
      by_cases hs : hasSkippedStep hd <;>
      simp [countElems, List.countP_cons, hty, hf, hs,
        scenarioClassifiedSkipped, scenarioClassifiedPassed] at ih ⊢ <;>
      omega

theorem countScenarios_partition (report : List ReportFeature) :
    countScenarios hasFailedStep report + countScenarios scenarioClassifiedSkipped report +
      countScenarios scenarioClassifiedPassed report =
      countScenarios (fun _ => true) report := by
  induction report with
  | nil => rfl
  | cons hd tl ih =>
    simp only [countScenarios]
    have := countElems_partition (elemsOf hd)
    omega

theorem countP_featureFailed_partition (report : List ReportFeature) :
    report.countP featureFailed + report.countP (fun f => !featureFailed f) =
      report.length := by
  induction report with
  | nil => rfl
  | cons hd tl ih =>
    by_cases h : featureFailed hd <;> simp [List.countP_cons, h] <;> omega

theorem stepCount_le_length (l : List ReportStep) :
    l.countP stepPassed + l.countP stepFailed + l.countP stepSkipped ≤ l.length := by
  induction l with
  | nil => simp
  | cons hd tl ih =>
    obtain ⟨res⟩ := hd
    cases res with
    | none => simp [List.countP_cons, stepPassed, stepFailed, stepSkipped]; omega
    | some r =>
      by_cases hp : r.status = "passed" <;> by_cases hf : r.status = "failed" <;>
        by_cases hs : r.status = "skipped" <;>
        simp_all [List.countP_cons, stepPassed, stepFailed, stepSkipped] <;>
        omega

theorem stepCountElems_le (l : List ReportScenario) :
    stepCountElems stepPassed l + stepCountElems stepFailed l +
      stepCountElems stepSkipped l ≤ stepLenElems l := by
  induction l with
  | nil => simp [stepCountElems, stepLenElems]
  | cons hd tl ih =>
    by_cases hty : isScenarioElem hd <;>
      simp only [stepCountElems, stepLenElems, List.foldr_cons, hty, if_pos, if_neg,
        Bool.not_eq_true, if_true, if_false] <;>
      have := stepCount_le_length (scenarioSteps hd) <;>
      simp_all [stepCountElems, stepLenElems] <;>
      omega

theorem stepCountScenarios_le (report : List ReportFeature) :
    stepCountScenarios stepPassed report + stepCountScenarios stepFailed report +
      stepCountScenarios stepSkipped report ≤ stepLenScenarios report := by
  induction report with
  | nil => simp [stepCountScenarios, stepLenScenarios]
  | cons hd tl ih =>
    simp only [stepCountScenarios, stepLenScenarios]
    have := stepCountElems_le (elemsOf hd)
    omega

/-- **C9**: in every summary, the scenario counters partition the scenario
total and the feature counters partition the feature total, while the step
counters only satisfy an inequality against the step total, strict for a
report containing a step whose result status is none of
passed/failed/skipped (such as `pending`). -/
theorem summary_count_invariants :
    (∀ report : List ReportFeature,
      ((calculateSummary report).scenarios.total =
        (calculateSummary report).scenarios.passed +
        (calculateSummary report).scenarios.failed +
        (calculateSummary report).scenarios.skipped)
      ∧ ((calculateSummary report).features.total =
          (calculateSummary report).features.passed +
          (calculateSummary report).features.failed)
      ∧ ((calculateSummary report).steps.passed +
          (calculateSummary report).steps.failed +
          (calculateSummary report).steps.skipped ≤
          (calculateSummary report).steps.total))
  ∧ ((calculateSummary pendingStepReport).steps.passed +
      (calculateSummary pendingStepReport).steps.failed +
      (calculateSummary pendingStepReport).steps.skipped <
      (calculateSummary pendingStepReport).steps.total) := by
  constructor
  · intro report
    rw [calculateSummary_char]
    refine ⟨?_, ?_, ?_⟩
    · have := countScenarios_partition report
      simp
      omega
    · have := countP_featureFailed_partition report
      simp
      omega
    · have := stepCountScenarios_le report
      simp
      omega
  · decide

/-- **C10**: the scenario counts computed by the `AfterAll` hook's summary
loop coincide with the `scenarios` group of
`CucumberReportGenerator.calculateSummary` on the same report array. -/
theorem afterAll_matches_calculateSummary (report : List ReportFeature) :
    ((afterAllSummary report).totalScenarios = (calculateSummary report).scenarios.total)
  ∧ ((afterAllSummary report).passedScenarios = (calculateSummary report).scenarios.passed)
  ∧ ((afterAllSummary report).failedScenarios = (calculateSummary report).scenarios.failed)
  ∧ ((afterAllSummary report).skippedScenarios =
      (calculateSummary report).scenarios.skipped) := by
  rw [afterAllSummary_char, calculateSummary_char]
  exact ⟨rfl, rfl, rfl, rfl⟩

/-! ## Lemmas about the browser lifecycle -/

theorem alternates_append (es1 es2 : List BEvent) (live : Bool) :
    alternates live (es1 ++ es2) =
      (alternates live es1 && alternates (liveAfter live es1) es2) := by
  induction es1 generalizing live with
  | nil => simp [alternates, liveAfter]
  | cons hd tl ih =>
    cases hd <;> simp [alternates, liveAfter, ih, Bool.and_assoc]

theorem beforeFeatureHook_preserves (hs : HookState) (u : String) (live : Bool)
    (h : hookInv live hs) :
    alternates live (beforeFeatureHook hs u).2 = true ∧
      hookInv (liveAfter live (beforeFeatureHook hs u).2) (beforeFeatureHook hs u).1 := by
  obtain ⟨uri, bm⟩ := hs
  obtain ⟨br, cx, pg, ini, rt⟩ := bm
  obtain ⟨h1, h2, h3, h4, h5⟩ := h
  simp only at h1 h2 h3 h4 h5
  subst h1
  subst h2
  subst h3
  subst h4
  by_cases hu : uri = some u
  · simp [beforeFeatureHook, hu, alternates, liveAfter, hookInv]
  · cases hini : ini <;> cases uri with
    | none =>
      simp_all [beforeFeatureHook, hu, isReady, initializeBrowser, cleanup, cleanupBody,
        alternates, liveAfter, hookInv]
    | some u0 =>
      simp_all [beforeFeatureHook, hu, isReady, initializeBrowser, cleanup, cleanupBody,
        alternates, liveAfter, hookInv]

theorem runFeatureHooks_alternates (us : List String) (hs : HookState) (live : Bool)
    (h : hookInv live hs) :
    alternates live (runFeatureHooks hs us).2 = true := by
  induction us generalizing hs live with
  | nil => simp [runFeatureHooks, alternates]
  | cons u rest ih =>
    rcases hstep : beforeFeatureHook hs u with ⟨hs1, es1⟩
    rcases hrun : runFeatureHooks hs1 rest with ⟨hs2, es2⟩
    have hall : runFeatureHooks hs (u :: rest) = (hs2, es1 ++ es2) := by
      simp [runFeatureHooks, hstep, hrun]
    have step := beforeFeatureHook_preserves hs u live h
    rw [hstep] at step
    have ih2 := ih hs1 (liveAfter live es1) step.2
    rw [hrun] at ih2
    rw [hall, alternates_append]
    simp [step.1, ih2]

/-- **C4**: over any sequence of scenarios processed by the feature-level
`Before` hook (given by their feature URIs), the launch/close events of the
browser alternate starting from no live browser, so at most one browser
instance is live at any time; a scenario whose feature URI equals the
tracked one leaves the state untouched and performs no browser event
(reuse); and each hook invocation emits at most a cleanup `close` followed
by a `launch`, in that order. -/
theorem featureHook_single_browser :
    (∀ (rt : Bool) (uris : List String),
      alternates false
        (runFeatureHooks { currentFeatureUri := none, bm := { recordTrace := rt } } uris).2
        = true)
  ∧ (∀ (hs : HookState) (u : String), hs.currentFeatureUri = some u →
      beforeFeatureHook hs u = (hs, []))
  ∧ (∀ (hs : HookState) (u : String),
      (beforeFeatureHook hs u).2 = [] ∨ (beforeFeatureHook hs u).2 = [BEvent.launch] ∨
      (beforeFeatureHook hs u).2 = [BEvent.close, BEvent.launch]) := by
  refine ⟨?_, ?_, ?_⟩
  · intro rt uris
    exact runFeatureHooks_alternates uris _ false (by simp [hookInv])
  · intro hs u hcur
    simp [beforeFeatureHook, hcur]
  · intro hs u
    obtain ⟨uri, bm⟩ := hs
    obtain ⟨br, cx, pg, ini, rt⟩ := bm
    by_cases hu : uri = some u
    · simp [beforeFeatureHook, hu]
    · cases uri <;> cases br <;> cases pg <;> cases ini <;> cases cx <;>
        simp [beforeFeatureHook, hu, isReady, cleanup, cleanupBody, initializeBrowser]

theorem featureHook_single_browser_witness :
    (alternates false
      (runFeatureHooks { currentFeatureUri := none, bm := { recordTrace := false } }
        ["a.feature", "a.feature", "b.feature"]).2 = true)
  ∧ beforeFeatureHook
      { currentFeatureUri := some "a.feature",
        bm := { browser := true, context := true, page := true,
                isInitialized := true, recordTrace := false } } "a.feature" =
      ({ currentFeatureUri := some "a.feature",
         bm := { browser := true, context := true, page := true,
                 isInitialized := true, recordTrace := false } }, []) :=
  ⟨featureHook_single_browser.1 false ["a.feature", "a.feature", "b.feature"],
   featureHook_single_browser.2.1
     { currentFeatureUri := some "a.feature",
       bm := { browser := true, context := true, page := true,
               isInitialized := true, recordTrace := false } } "a.feature" rfl⟩

/-- **C5**: `takeScreenshot` never throws: it returns `none` exactly when
the page is not initialized or the underlying screenshot call fails, and
the screenshot path otherwise; and every error thrown inside `cleanup`'s
`try` block is caught and converted into a logged message, never
propagated. -/
theorem screenshot_and_cleanup_error_handling :
    (∀ (hasPage shotFails : Bool) (name timestamp : String),
      (takeScreenshot hasPage shotFails name timestamp = none ↔
        (hasPage = false ∨ shotFails = true))
      ∧ (hasPage = true → shotFails = false →
          takeScreenshot hasPage shotFails name timestamp =
            some ("reports/screenshots/" ++ name ++ "-" ++ timestamp ++ ".png")))
  ∧ (∀ (st : BMState) (f : CleanupFaults) (msg : String) (s : BMState) (es : List BEvent),
      cleanupBody st f = Except.error (msg, s, es) → cleanup st f = (s, es, some msg)) := by
  constructor
  · intro hasPage shotFails name timestamp
    constructor
    · cases hasPage <;> cases shotFails <;> simp [takeScreenshot]
    · intro h1 h2
      subst h1
      subst h2
      simp [takeScreenshot]
  · intro st f msg s es h
    simp [cleanup, h]

theorem screenshot_and_cleanup_error_handling_witness :
    takeScreenshot true false "nm" "ts" = some "reports/screenshots/nm-ts.png" ∧
    cleanup { page := true } { pageCloseFails := true } =
      ({ page := true }, [], some "page close failed") :=
  ⟨(screenshot_and_cleanup_error_handling.1 true false "nm" "ts").2 rfl rfl,
   screenshot_and_cleanup_error_handling.2 { page := true } { pageCloseFails := true }
     "page close failed" { page := true } [] rfl⟩

theorem strLength_append (a b : String) : (a ++ b).length = a.length + b.length := by
  rcases a with ⟨la⟩
  rcases b with ⟨lb⟩
  show (la ++ lb).length = la.length + lb.length
  exact List.length_append la lb

/-- **C6 counterexample**: the claim says the error re-thrown by
`navigateToPage` carries more information than the original (for instance
the full URL attempted).  At this concrete failing navigation the thrown
error is exactly the original goto error and its message cannot contain the
full URL (it is shorter than the URL). -/
theorem navigateToPage_rethrows_original_counterexample :
    (navigateToPage true "/login" "http://example.com" true "net::ERR_FAILED").1 =
      Except.error "net::ERR_FAILED" ∧
    ¬ ∃ pre post : String,
        "net::ERR_FAILED" = pre ++ "http://example.com/login" ++ post := by
  constructor
  · rfl
  · rintro ⟨pre, post, h⟩
    have hlen := congrArg String.length h
    rw [strLength_append, strLength_append] at hlen
    have h1 : ("net::ERR_FAILED" : String).length = 15 := rfl
    have h2 : ("http://example.com/login" : String).length = 24 := rfl
    omega

/-- **C6 (amended)**: when the navigation inside `navigateToPage` fails, the
error is caught, an enriched message containing the full URL attempted is
logged via `console.error`, and the caught error object itself is re-thrown
unchanged (the thrown error is the original, not an enriched one); a
missing page throws the fixed initialization error. -/
theorem navigateToPage_error_handling (url baseURL gotoErr : String) :
    ((navigateToPage true url baseURL true gotoErr).1 = Except.error gotoErr)
  ∧ ((navigateToPage true url baseURL true gotoErr).2 =
      ["Navigation failed to " ++
        (if strStartsWith url "http" then url else baseURL ++ url) ++ ": " ++ gotoErr])
  ∧ ((navigateToPage false url baseURL true gotoErr).1 =
      Except.error "Page not initialized. Call initializeBrowser() first.") := by
  refine ⟨?_, ?_, rfl⟩ <;> simp [navigateToPage]

/-! ## Lemmas about the data generators -/

theorem natDigitsRev_eq_digits (fuel n : Nat) (h : n ≤ fuel) :
    natDigitsRev fuel n = Nat.digits 10 n := by
  induction fuel generalizing n with
  | zero =>
    interval_cases n
    simp [natDigitsRev]
  | succ f ih =>
    by_cases hn : n = 0
    · subst hn
      simp [natDigitsRev]
    · rw [natDigitsRev, if_neg hn,
        ih (n / 10) (by omega), Nat.digits_def' (by norm_num) (Nat.pos_of_ne_zero hn)]

theorem strData_append (a b : String) : (a ++ b).data = a.data ++ b.data := by
  rcases a with ⟨la⟩
  rcases b with ⟨lb⟩
  rfl

theorem digitChar_isDigit (d : Nat) (h : d < 10) : (Nat.digitChar d).isDigit = true := by
  interval_cases d <;> decide

theorem numToString_char_spec (n lo k : Nat) (hlo : 10 ^ k ≤ lo) (h1 : lo ≤ n)
    (h2 : n < 10 ^ (k + 1)) :
    (numToString n).data.length = k + 1 ∧
      ∀ c ∈ (numToString n).data, c.isDigit = true := by
  have hn : n ≠ 0 := by
    have : 0 < 10 ^ k := Nat.pos_pow_of_pos k (by norm_num)
    omega
  have hdata : (numToString n).data = ((Nat.digits 10 n).map Nat.digitChar).reverse := by
    rw [numToString, if_neg hn, natDigitsRev_eq_digits n n le_rfl]
  constructor
  · rw [hdata, List.length_reverse, List.length_map,
      Nat.digits_len 10 n (by norm_num) hn,
      Nat.log_eq_of_pow_le_of_lt_pow (le_trans hlo h1) h2]
  · intro c hc
    rw [hdata] at hc
    rw [List.mem_reverse] at hc
    obtain ⟨d, hd, rfl⟩ := List.mem_map.mp hc
    exact digitChar_isDigit d (Nat.digits_lt_base (by norm_num) hd)

theorem list_length_eq_four {α : Type} (l : List α) (h : l.length = 4) :
    ∃ a b c d, l = [a, b, c, d] := by
  rcases l with _ | ⟨a, _ | ⟨b, _ | ⟨c, _ | ⟨d, _ | ⟨e, t⟩⟩⟩⟩⟩ <;> simp_all

theorem deepMerge_empty_override (t : JSValue) : deepMerge t (JSValue.obj []) = t := by
  cases t <;> rfl

theorem generateSSN_shaped (a b c : Nat) (h : ssnDrawsInRange a b c) :
    ssnShaped (generateSSN a b c) = true := by
  obtain ⟨⟨ha1, ha2⟩, ⟨hb1, hb2⟩, ⟨hc1, hc2⟩⟩ := h
  have hA := numToString_char_spec a 100 2 (by norm_num) ha1 (by norm_num; omega)
  have hB := numToString_char_spec b 10 1 (by norm_num) hb1 (by norm_num; omega)
  have hC := numToString_char_spec c 1000 3 (by norm_num) hc1 (by norm_num; omega)
  obtain ⟨x1, x2, x3, hxa⟩ := List.length_eq_three.mp hA.1
  obtain ⟨y1, y2, hxb⟩ := List.length_eq_two.mp hB.1
  obtain ⟨z1, z2, z3, z4, hxc⟩ := list_length_eq_four _ hC.1
  have hdata : (generateSSN a b c).data =
      (numToString a).data ++ '-' ::
        ((numToString b).data ++ '-' :: (numToString c).data) := by
    simp [generateSSN, strData_append]
  have hstr : generateSSN a b c =
      ⟨[x1, x2, x3, '-', y1, y2, '-', z1, z2, z3, z4]⟩ := by
    rcases hgen : generateSSN a b c with ⟨l⟩
    have : l = [x1, x2, x3, '-', y1, y2, '-', z1, z2, z3, z4] := by
      have hd2 := hdata
      rw [hgen] at hd2
      rw [hxa, hxb, hxc] at hd2
      simpa using hd2
    rw [this]
  have dx1 : x1.isDigit = true := hA.2 x1 (by rw [hxa]; simp)
  have dx2 : x2.isDigit = true := hA.2 x2 (by rw [hxa]; simp)
  have dx3 : x3.isDigit = true := hA.2 x3 (by rw [hxa]; simp)
  have dy1 : y1.isDigit = true := hB.2 y1 (by rw [hxb]; simp)
  have dy2 : y2.isDigit = true := hB.2 y2 (by rw [hxb]; simp)
  have dz1 : z1.isDigit = true := hC.2 z1 (by rw [hxc]; simp)
  have dz2 : z2.isDigit = true := hC.2 z2 (by rw [hxc]; simp)
  have dz3 : z3.isDigit = true := hC.2 z3 (by rw [hxc]; simp)
  have dz4 : z4.isDigit = true := hC.2 z4 (by rw [hxc]; simp)
  rw [hstr]
  simp [ssnShaped, dx1, dx2, dx3, dy1, dy2, dz1, dz2, dz3, dz4]

/-- **C7 counterexample**: the claim asserts that for some call of
`generateInsuranceCustomer` with no overrides the `ssn` field is not an
SSN-shaped string.  We prove its negation: there is no valuation of the
faker draws (within the ranges `generateSSN` requests) for which the `ssn`
field fails the 3-2-4 digit shape. -/
theorem generated_ssn_never_misshaped :
    ¬ ∃ r : CustomerRandoms, ssnDrawsInRange r.ssn1 r.ssn2 r.ssn3 ∧
      ∀ s : String,
        customerSSN (generateInsuranceCustomer r (JSValue.obj [])) = JSValue.str s →
        ssnShaped s = false := by
  rintro ⟨r, hrange, hbad⟩
  have hssn : customerSSN (generateInsuranceCustomer r (JSValue.obj [])) =
      JSValue.str (generateSSN r.ssn1 r.ssn2 r.ssn3) := rfl
  have h1 := hbad _ hssn
  have h2 := generateSSN_shaped r.ssn1 r.ssn2 r.ssn3 hrange
  rw [h1] at h2
  exact Bool.noConfusion h2

/-- **C7 (amended)**: for every call of `generateInsuranceCustomer` with no
overrides, the `ssn` field is the string built by `generateSSN`, and for
every valuation of the faker draws within the ranges `generateSSN` requests
that string IS SSN-shaped (three digits, hyphen, two digits, hyphen, four
digits): the generator does guarantee this field-level format. -/
theorem generated_ssn_shaped (r : CustomerRandoms)
    (h : ssnDrawsInRange r.ssn1 r.ssn2 r.ssn3) :
    customerSSN (generateInsuranceCustomer r (JSValue.obj [])) =
      JSValue.str (generateSSN r.ssn1 r.ssn2 r.ssn3) ∧
    ssnShaped (generateSSN r.ssn1 r.ssn2 r.ssn3) = true :=
  ⟨rfl, generateSSN_shaped r.ssn1 r.ssn2 r.ssn3 h⟩

theorem generated_ssn_shaped_witness :
    customerSSN (generateInsuranceCustomer
        { ssn1 := 123, ssn2 := 45, ssn3 := 6789 } (JSValue.obj [])) =
      JSValue.str "123-45-6789" ∧
    ssnShaped "123-45-6789" = true :=
  ⟨(generated_ssn_shaped { ssn1 := 123, ssn2 := 45, ssn3 := 6789 }
      (by unfold ssnDrawsInRange; decide)).1,
   (generated_ssn_shaped { ssn1 := 123, ssn2 := 45, ssn3 := 6789 }
      (by unfold ssnDrawsInRange; decide)).2⟩

/-- **C8**: the `fullAddress` field of a generated customer is the
concatenation `"street, city, state zipCode"` of the internally generated
address values, computed before the override merge: whenever the overrides
record contains an `address` object that does not define `fullAddress`, the
merged customer keeps the pre-merge concatenation — even though sibling
fields such as `street` are replaced by the override — so the returned
`fullAddress` is stale with respect to the returned address fields. -/
theorem fullAddress_stale_under_override (r : CustomerRandoms)
    (ovf af : List (String × JSValue))
    (hnd : (ovf.map Prod.fst).Nodup) (hand : (af.map Prod.fst).Nodup)
    (haddr : lookupField ovf "address" = JSValue.obj af)
    (hfa : lookupField af "fullAddress" = JSValue.undef) :
    (customerFullAddress (generateInsuranceCustomer r (JSValue.obj ovf)) =
      JSValue.str (r.street ++ ", " ++ r.city ++ ", " ++ r.state ++ " " ++ r.zipCode))
  ∧ (∀ s0, lookupField af "street" = JSValue.str s0 →
      customerStreet (generateInsuranceCustomer r (JSValue.obj ovf)) = JSValue.str s0) := by
  have haddrmem : ("address", JSValue.obj af) ∈ ovf :=
    lookupField_mem _ _ _ haddr (fun hh => JSValue.noConfusion hh)
  have h1 : lookupField (mergeLoop (customerFields r) (customerFields r) ovf) "address"
      = JSValue.obj (mergeLoop (addressFields r) (addressFields r) af) := by
    rw [mergeLoop_lookup_mem ovf (customerFields r) (customerFields r) "address"
      (JSValue.obj af) hnd haddrmem rfl]
    have hcust : lookupField (customerFields r) "address" =
        JSValue.obj (addressFields r) := rfl
    rw [hcust]
    simp [JSValue.isObjectNotNull]
    rfl
  constructor
  · show lookupField (lookupField
        (mergeLoop (customerFields r) (customerFields r) ovf) "address").fields
        "fullAddress" = _
    rw [h1]
    show lookupField (mergeLoop (addressFields r) (addressFields r) af) "fullAddress" = _
    rw [mergeLoop_lookup_skip af (addressFields r) (addressFields r) "fullAddress"
      (fun v hv => ((lookupField_of_mem_nodup af "fullAddress" v hand hv).symm.trans hfa))]
    rfl
  · intro s0 hs0
    have hmem : ("street", JSValue.str s0) ∈ af :=
      lookupField_mem _ _ _ hs0 (fun hh => JSValue.noConfusion hh)
    show lookupField (lookupField
        (mergeLoop (customerFields r) (customerFields r) ovf) "address").fields
        "street" = _
    rw [h1]
    show lookupField (mergeLoop (addressFields r) (addressFields r) af) "street" = _
    rw [mergeLoop_lookup_mem af (addressFields r) (addressFields r) "street"
      (JSValue.str s0) hand hmem rfl]
    simp [JSValue.isObjectNotNull]

theorem fullAddress_stale_under_override_witness :
    (customerFullAddress (generateInsuranceCustomer
        { street := "1 Main St", city := "Springfield", state := "IL", zipCode := "11111" }
        (JSValue.obj [("address", JSValue.obj [("street", JSValue.str "42 Oak Ave")])])) =
      JSValue.str "1 Main St, Springfield, IL 11111")
  ∧ (customerStreet (generateInsuranceCustomer
        { street := "1 Main St", city := "Springfield", state := "IL", zipCode := "11111" }
        (JSValue.obj [("address", JSValue.obj [("street", JSValue.str "42 Oak Ave")])])) =
      JSValue.str "42 Oak Ave") :=
  ⟨(fullAddress_stale_under_override
      { street := "1 Main St", city := "Springfield", state := "IL", zipCode := "11111" }
      [("address", JSValue.obj [("street", JSValue.str "42 Oak Ave")])]
      [("street", JSValue.str "42 Oak Ave")]
      (by simp) (by simp) rfl rfl).1,
   (fullAddress_stale_under_override
      { street := "1 Main St", city := "Springfield", state := "IL", zipCode := "11111" }
      [("address", JSValue.obj [("street", JSValue.str "42 Oak Ave")])]
      [("street", JSValue.str "42 Oak Ave")]
      (by simp) (by simp) rfl rfl).2 "42 Oak Ave" rfl⟩
